import Mathlib

/-!
Verification development for the pbapi backend (handlers + identifier
derivation).  Pure Python functions are embedded as Lean functions; the
stateful table store is embedded as explicit state passing over record
lists.  Machine floats and timestamps irrelevant to the verified logic
are omitted from the record projections; all retained fields are the
ones the handlers read or write.
-/

set_option autoImplicit false

namespace PBApi

/-- OSM element kinds, from the `OsmType` enum used by the shop schema
(tests `src/src/tests/unit/schemas/test_shop.py`). -/
inductive OsmType
  | NODE
  | WAY
  | RELATION
deriving DecidableEq, Repr

/-- Barcode-resolution state of a purchased item (`ItemBarcodeStatus`);
only `PENDING` is observable in the verified logic. -/
inductive ItemBarcodeStatus
  | PENDING
  | APPROVED
  | DECLINED
deriving DecidableEq, Repr

/-- OSM location payload of a shop (`src/src/schemas/osm_data.py` via its
tests): an element kind, a numeric key, and display fields. -/
structure OsmData where
  type : OsmType
  key : Nat
  lat : String
  lon : String
  display_name : String
deriving DecidableEq, Repr

/-- Modelled from the spec: the numeric type code used by the shop
schema's OSM identifier derivation (the schema file is not in the source
tree; spec section 4.3 fixes the mapping NODE to 1, RELATION to 2,
WAY to 3). -/
def osmTypeCode : OsmType → Nat
  | .NODE => 1
  | .RELATION => 2
  | .WAY => 3

/-- Modelled from the spec: `deriveOsmId` computes the derived shop key
`"{type_code}:{key}"` (spec section 4.3; exercised by
`src/src/tests/unit/schemas/test_shop.py`). -/
def deriveOsmId (t : OsmType) (key : Nat) : String :=
  toString (osmTypeCode t) ++ ":" ++ toString key

/-- The `Shop` pydantic model as validated data: required
`country_code`, `company_id`, `address`, `osm_data`, `creator_user_id`;
optional server-assigned `id`; non-null `osm_id` after construction. -/
structure Shop where
  id : Option Int
  osm_id : String
  country_code : String
  company_id : String
  address : String
  osm_data : OsmData
  creator_user_id : String
  creation_time : Nat
deriving DecidableEq, Repr

/-- Modelled from the spec: `Shop` construction (`model_post_init` of the
missing `src/src/schemas/shop.py`): when no `osm_id` is supplied it is
derived from `osm_data.type` and `osm_data.key`; a supplied value is
kept unchanged (spec sections 3 and 4.3). -/
def Shop.make (id : Option Int) (osm_id : Option String)
    (country_code company_id address : String) (osm_data : OsmData)
    (creator_user_id : String) (creation_time : Nat) : Shop :=
  { id := id
    osm_id :=
      match osm_id with
      | some v => v
      | none => deriveOsmId osm_data.type osm_data.key
    country_code := country_code
    company_id := company_id
    address := address
    osm_data := osm_data
    creator_user_id := creator_user_id
    creation_time := creation_time }

/-- A stored row of the `shop` table: the four legacy columns are
nullable (rows predating them hold NULL). -/
structure ShopRow where
  id : Int
  osm_id : String
  country_code : Option String
  company_id : Option String
  address : Option String
  osm_data : Option OsmData
  creator_user_id : String
  creation_time : Nat
deriving DecidableEq, Repr

/-- Modelled from the spec: the state of the `shop` table behind the
persistence collaborator (spec section 6) — stored rows plus the next
auto-increment id. -/
structure ShopDB where
  rows : List ShopRow
  nextId : Int
deriving DecidableEq, Repr

/-- Modelled from the spec: `read_many({"osm_id": osm}, limit=1)` on the
shop table — rows whose `osm_id` column equals the filter value, first
match only. -/
def shopReadManyByOsmId (db : ShopDB) (osm : String) : List ShopRow :=
  (db.rows.filter (fun r => r.osm_id == osm)).take 1

/-- Modelled from the spec: `create_one` on the shop table — a null `id`
is omitted from the insert so the store auto-assigns `nextId`; the
assigned id is returned (spec section 6). -/
def shopCreateOne (db : ShopDB) (shop : Shop) : ShopDB × Int :=
  let assigned := shop.id.getD db.nextId
  ({ rows :=
      db.rows ++
        [{ id := assigned
           osm_id := shop.osm_id
           country_code := some shop.country_code
           company_id := some shop.company_id
           address := some shop.address
           osm_data := some shop.osm_data
           creator_user_id := shop.creator_user_id
           creation_time := shop.creation_time }]
     nextId := db.nextId + 1 }, assigned)

/-- `ShopHandler.get_or_create` (src/src/handlers/shop.py:11-31): look up
by `osm_id` limited to one row; if found, backfill each NULL legacy
column from the incoming shop and rebuild a `Shop` from the row
(`Shop(**shops[0])`, no write); otherwise insert the incoming shop and
set the assigned id on it. -/
def ShopHandler.get_or_create (db : ShopDB) (shop : Shop) : ShopDB × Shop :=
  match (shopReadManyByOsmId db shop.osm_id).head? with
  | some row =>
    (db,
      { id := some row.id
        osm_id := row.osm_id
        country_code := row.country_code.getD shop.country_code
        company_id := row.company_id.getD shop.company_id
        address := row.address.getD shop.address
        osm_data := row.osm_data.getD shop.osm_data
        creator_user_id := row.creator_user_id
        creation_time := row.creation_time })
  | none =>
    let (db, shop_id) := shopCreateOne db shop
    (db, { shop with id := some shop_id })

/-- A stored row of the `user` table: server-assigned id (modelled as a
natural number standing in for the generated UUID), optional email,
name. -/
structure UserRow where
  id : Nat
  email : Option String
  name : String
deriving DecidableEq, Repr

/-- The `User` pydantic model: `id` is absent before persistence and set
from the store-assigned identifier afterwards. -/
structure User where
  id : Option Nat
  email : Option String
  name : String
deriving DecidableEq, Repr

/-- A stored row of the `user_identity` table: composite key
`(id, provider)` plus the referenced `user_id`. -/
structure IdentityRow where
  id : String
  provider : String
  user_id : Nat
deriving DecidableEq, Repr

/-- Modelled from the spec: the state of the `user` and `user_identity`
tables behind the persistence collaborator (spec section 6), with the
next id the store would assign to a created user. -/
structure UserDB where
  users : List UserRow
  identities : List IdentityRow
  nextUserId : Nat
deriving DecidableEq, Repr

/-- Modelled from the spec: `create_one` on the user table — the store
assigns a fresh identifier and returns it. -/
def userCreateOne (db : UserDB) (email : Option String) (name : String) :
    UserDB × Nat :=
  ({ db with
      users := db.users ++ [{ id := db.nextUserId, email := email, name := name }]
      nextUserId := db.nextUserId + 1 }, db.nextUserId)

/-- Modelled from the spec: `read_one(id)` on the user table — first row
whose id matches, or absence. -/
def userReadOne (db : UserDB) (uid : Nat) : Option UserRow :=
  (db.users.filter (fun u => u.id == uid)).head?

/-- `UserIdentityHandler.find` (src/src/handlers/user_identity.py:18-29):
filter lookup by the composite key `(id, provider)`, limit 1; absence is
returned, not an error. -/
def UserIdentityHandler.find (db : UserDB) (idv provider : String) :
    Option IdentityRow :=
  ((db.identities.filter (fun r => r.id == idv && r.provider == provider)).take 1).head?

/-- `UserIdentityHandler.create` (src/src/handlers/user_identity.py:31-38):
inserts the identity row and returns the created row's identifier. -/
def UserIdentityHandler.create (db : UserDB) (identity : IdentityRow) :
    UserDB × String :=
  ({ db with identities := db.identities ++ [identity] }, identity.id)

/-- The identity's `model_dump` as a field-name/value association list:
keys `id`, `provider`, `user_id` (user id rendered as its string form,
as in the JSON dump). -/
def identityModelDump (identity : IdentityRow) : List (String × String) :=
  [("id", identity.id), ("provider", identity.provider),
   ("user_id", toString identity.user_id)]

/-- Modelled from the spec: applying an update payload (association list
of column name / value) to a stored identity row, column by column. A
payload that carried `id` or `provider` would mutate the key columns. -/
def applyIdentityPayload (row : IdentityRow) (data : List (String × String)) :
    IdentityRow :=
  data.foldl
    (fun r kv =>
      if kv.fst = "id" then { r with id := kv.snd }
      else if kv.fst = "provider" then { r with provider := kv.snd }
      else if kv.fst = "user_id" then { r with user_id := kv.snd.toNat! }
      else r)
    row

/-- Modelled from the spec: `update_one_by(filter, data)` on the
user_identity table — locate the first row matching the filter, apply
the payload to it, report success as a boolean (spec section 6). -/
def identityUpdateOneBy (db : UserDB) (idv provider : String)
    (data : List (String × String)) : UserDB × Bool :=
  if db.identities.any (fun r => r.id == idv && r.provider == provider) then
    ({ db with
        identities :=
          db.identities.map
            (fun r =>
              if r.id == idv && r.provider == provider then
                applyIdentityPayload r data
              else r) }, true)
  else (db, false)

/-- The update payload built by `UserIdentityHandler.update`
(src/src/handlers/user_identity.py:40-47): the model dump with the keys
`id` and `provider` popped. -/
def identityUpdatePayload (identity : IdentityRow) : List (String × String) :=
  ((identityModelDump identity).eraseP (fun kv => kv.fst == "id")).eraseP
    (fun kv => kv.fst == "provider")

/-- `UserIdentityHandler.update` (src/src/handlers/user_identity.py:40-47):
dump the identity, pop `id` and `provider`, update the row located by
`(id, provider)` with the remaining fields, return the store's boolean. -/
def UserIdentityHandler.update (db : UserDB) (identity : IdentityRow) :
    UserDB × Bool :=
  identityUpdateOneBy db identity.id identity.provider
    (identityUpdatePayload identity)

/-- `UserIdentityHandler.get_or_create_user_by_identity`
(src/src/handlers/user_identity.py:49-75).  If `find` hits, the
referenced user row is point-read and returned (`none` here models the
uncaught fault when the referenced user row is missing).  Otherwise a
new user row is created, its assigned id captured, a new identity row
linking `(id, provider)` to it is created, and the new user returned. -/
def UserIdentityHandler.get_or_create_user_by_identity (db : UserDB)
    (idv provider : String) (email : Option String) (name : String) :
    UserDB × Option User :=
  match UserIdentityHandler.find db idv provider with
  | some identity =>
    match userReadOne db identity.user_id with
    | some u => (db, some { id := some u.id, email := u.email, name := u.name })
    | none => (db, none)
  | none =>
    let (db, user_id) := userCreateOne db email name
    let new_user : User := { id := some user_id, email := email, name := name }
    let (db, _) :=
      UserIdentityHandler.create db
        { id := idv, provider := provider, user_id := user_id }
    (db, some new_user)

/-- A purchased line item of a receipt (`src/src/schemas/purchased_item.py`):
optional catalog reference `item_id` (string form of the catalog UUID)
and a barcode status defaulting to `PENDING`.  The numeric quantity and
price fields are never read or written by the verified handlers and are
omitted. -/
structure PurchasedItem where
  name : String
  unit : Option String
  item_id : Option String
  status : ItemBarcodeStatus
deriving DecidableEq, Repr

/-- The `SfsMdReceipt` pydantic model restricted to the fields the
receipt handler reads or writes; `id` is the string primary key. -/
structure SfsMdReceipt where
  id : String
  user_id : String
  company_id : String
  company_name : String
  shop_address : String
  country_code : Option String
  cash_register_id : String
  key : Nat
  shop_id : Option Int
  receipt_url : String
  receipt_canonical_url : Option String
  purchases : List PurchasedItem
deriving DecidableEq, Repr

/-- Modelled from the spec: `make_hash` (`src/helpers/common.py` is not
in the source tree); the spec only requires a deterministic derived
lookup key `hash(url)`, so a fixed injective stand-in is used. -/
def make_hash (url : String) : String :=
  "sha256:" ++ url

/-- A stored row of the `receipt_url` table, with the derived key
`id = make_hash url` (spec section 3). -/
structure ReceiptUrlRow where
  id : String
  url : String
  receipt_id : String
deriving DecidableEq, Repr

/-- Modelled from the spec: the `ReceiptUrl` schema constructor — its
stored key is derived from the URL (spec section 3: a derived lookup key
`id = hash(url)`). -/
def ReceiptUrl.make (url receipt_id : String) : ReceiptUrlRow :=
  { id := make_hash url, url := url, receipt_id := receipt_id }

/-- A stored row of the `shop_item` catalog table: string id (UUID),
name, owning shop, and a nullable barcode status (the handler defaults a
missing status to `PENDING`). -/
structure ShopItemRow where
  id : String
  name : String
  shop_id : Int
  status : Option ItemBarcodeStatus
deriving DecidableEq, Repr

/-- Modelled from the spec: the state of the tables the receipt handler
touches (spec section 6): shop, shop_item, receipt and receipt_url
tables, plus a log of the catalog lookups issued against the shop_item
table (instrumentation recording the queries the handler sends to the
store; it carries no data the handler reads back). -/
structure MdDB where
  shops : List ShopRow
  shop_items : List ShopItemRow
  receipts : List SfsMdReceipt
  receipt_urls : List ReceiptUrlRow
  itemLookups : List (String × Int)
deriving DecidableEq, Repr

/-- Modelled from the spec: the shop-table filter
`{"address": .., "company_id": .., "country_code": ..}` of the receipt
handler — AND-combined exact equality of the three columns (spec
section 6). -/
def shopMatchesReceipt (row : ShopRow) (receipt : SfsMdReceipt) : Bool :=
  row.address == some receipt.shop_address &&
    row.company_id == some receipt.company_id &&
    row.country_code == receipt.country_code

/-- Modelled from the spec: `read_one(id)` on the receipt table. -/
def receiptReadOne (db : MdDB) (rid : String) : Option SfsMdReceipt :=
  (db.receipts.filter (fun r => r.id == rid)).head?

/-- Modelled from the spec: `read_one(key)` on the receipt_url table. -/
def receiptUrlReadOne (db : MdDB) (key : String) : Option ReceiptUrlRow :=
  (db.receipt_urls.filter (fun r => r.id == key)).head?

/-- Modelled from the spec: `create_or_update_one` on the receipt table —
upsert keyed by `id`: replace the existing row or insert a new one
(spec sections 3 and 6). -/
def receiptCreateOrUpdateOne (db : MdDB) (receipt : SfsMdReceipt) : MdDB :=
  if db.receipts.any (fun r => r.id == receipt.id) then
    { db with
        receipts := db.receipts.map (fun r => if r.id == receipt.id then receipt else r) }
  else
    { db with receipts := db.receipts ++ [receipt] }

/-- Modelled from the spec: `create_one` on the receipt_url table — a
plain insert, never an upsert (spec section 3). -/
def receiptUrlCreateOne (db : MdDB) (row : ReceiptUrlRow) : MdDB :=
  { db with receipt_urls := db.receipt_urls ++ [row] }

/-- Modelled from the spec: `update_one(id, data)` on the receipt table —
replace the row with the given id by the full dumped record, reporting
success as a boolean (spec section 6). -/
def receiptUpdateOne (db : MdDB) (rid : String) (receipt : SfsMdReceipt) :
    MdDB × Bool :=
  if db.receipts.any (fun r => r.id == rid) then
    ({ db with
        receipts := db.receipts.map (fun r => if r.id == rid then receipt else r) },
      true)
  else (db, false)

/-- `SfsMdReceiptHandler.get_by_id`
(src/src/handlers/sfs_md/receipt.py:15-20): point read by primary id;
absence yields `none`. -/
def SfsMdReceiptHandler.get_by_id (db : MdDB) (receipt_id : String) :
    Option SfsMdReceipt :=
  match receiptReadOne db receipt_id with
  | some receipt => some receipt
  | none => none

/-- `SfsMdReceiptHandler.get_by_url`
(src/src/handlers/sfs_md/receipt.py:22-34): read the receipt_url row at
key `make_hash url`; when found, point-read the receipt at its
`receipt_id`; a miss at either step yields `none`. -/
def SfsMdReceiptHandler.get_by_url (db : MdDB) (url : String) :
    Option SfsMdReceipt :=
  match receiptUrlReadOne db (make_hash url) with
  | some receipt_url =>
    match receiptReadOne db receipt_url.receipt_id with
    | some receipt => some receipt
    | none => none
  | none => none

/-- The per-purchase body of the `for` loop in
`SfsMdReceiptHandler.get_or_create`
(src/src/handlers/sfs_md/receipt.py:49-58): look up a catalog item by
`(name, shop_id)` limited to one row; on a hit set `item_id` to the
matched row's id and copy its status, defaulting a missing status to
`PENDING` (`items[0].get("status", ItemBarcodeStatus.PENDING)`). -/
def resolvePurchase (items : List ShopItemRow) (shopId : Int)
    (p : PurchasedItem) : PurchasedItem :=
  match ((items.filter (fun it => it.name == p.name && it.shop_id == shopId)).take 1).head? with
  | some it => { p with item_id := some it.id, status := it.status.getD .PENDING }
  | none => p

/-- `SfsMdReceiptHandler.get_or_create`
(src/src/handlers/sfs_md/receipt.py:36-73): resolve the shop by
`(address, company_id, country_code)` limited to one row; when resolved,
set `shop_id` and resolve each purchase against the shop_item catalog
(the lookups issued are recorded in `itemLookups`); then upsert the
receipt, create a receipt_url row for `receipt_url`, and one more for
`receipt_canonical_url` when present; return the mutated receipt. -/
def SfsMdReceiptHandler.get_or_create (db : MdDB) (receipt : SfsMdReceipt) :
    MdDB × SfsMdReceipt :=
  let shops := (db.shops.filter (fun s => shopMatchesReceipt s receipt)).take 1
  let (db, receipt) :=
    match shops.head? with
    | some s =>
      let receipt := { receipt with shop_id := some s.id }
      let db :=
        { db with
            itemLookups := db.itemLookups ++ receipt.purchases.map (fun p => (p.name, s.id)) }
      let receipt :=
        { receipt with purchases := receipt.purchases.map (resolvePurchase db.shop_items s.id) }
      (db, receipt)
    | none => (db, receipt)
  let db := receiptCreateOrUpdateOne db receipt
  let db := receiptUrlCreateOne db (ReceiptUrl.make receipt.receipt_url receipt.id)
  let db :=
    match receipt.receipt_canonical_url with
    | some canonical => receiptUrlCreateOne db (ReceiptUrl.make canonical receipt.id)
    | none => db
  (db, receipt)

/-- An HTTP-level error raised to the caller (starlette `HTTPException`). -/
structure HttpError where
  status_code : Nat
  detail : String
deriving DecidableEq, Repr

/-- `SfsMdReceiptHandler.add_shop_id`
(src/src/handlers/sfs_md/receipt.py:75-79): set `shop_id`, persist via
`update_one` keyed by the receipt id, return the mutated receipt.  The
`Except` result models Python exception raising; the source discards
`update_one`'s boolean and never raises. -/
def SfsMdReceiptHandler.add_shop_id (db : MdDB) (shop_id : Int)
    (receipt : SfsMdReceipt) : MdDB × Except HttpError SfsMdReceipt :=
  let receipt := { receipt with shop_id := some shop_id }
  let (db, _ok) := receiptUpdateOne db receipt.id receipt
  (db, Except.ok receipt)

/-- The empty shop table with auto-increment starting at 1. -/
def emptyShopDB : ShopDB :=
  { rows := [], nextId := 1 }

/-- The empty user / user_identity tables. -/
def emptyUserDB : UserDB :=
  { users := [], identities := [], nextUserId := 1 }

/-- The empty receipt-handler store. -/
def emptyMdDB : MdDB :=
  { shops := [], shop_items := [], receipts := [], receipt_urls := [], itemLookups := [] }

/-- The OSM payload used by the repository's shop fixtures. -/
def sampleOsmData : OsmData :=
  { type := .NODE, key := 123456, lat := "47.0293446", lon := "28.8638389",
    display_name := "Test Shop, Chisinau, Moldova" }

/-- The shop fixture of the repository's handler tests. -/
def sampleShop : Shop :=
  Shop.make none none "md" "5897403875" "Test Address, Chisinau" sampleOsmData
    "12345678-1234-5678-1234-567812345678" 1234567890

/-- A stored legacy shop row matching `sampleShop.osm_id` with all four
nullable columns NULL. -/
def legacyShopRow : ShopRow :=
  { id := 42, osm_id := "1:123456", country_code := none, company_id := none,
    address := none, osm_data := none,
    creator_user_id := "12345678-1234-5678-1234-567812345678",
    creation_time := 1234567890 }

/-- A shop table holding only `legacyShopRow`. -/
def legacyShopDB : ShopDB :=
  { rows := [legacyShopRow], nextId := 43 }

/-- The receipt fixture of the repository's handler tests
(`make_receipt` in `src/src/tests/unit/__init__.py`), a canonical URL
added. -/
def sampleReceipt : SfsMdReceipt :=
  { id := "md_cr_1_42"
    user_id := "12345678-1234-5678-1234-567812345678"
    company_id := "cmp_1"
    company_name := "Test Co"
    shop_address := "123 Test Street"
    country_code := none
    cash_register_id := "cr_1"
    key := 42
    shop_id := none
    receipt_url := "https://example.com/receipt/42"
    receipt_canonical_url := some "https://example.com/receipt/c/42"
    purchases := [{ name := "Item A", unit := some "pcs", item_id := none,
                    status := .PENDING }] }

/-- A stored shop row matching `sampleReceipt`'s
`(address, company_id, country_code)` filter. -/
def receiptShopRow : ShopRow :=
  { id := 567, osm_id := "1:99", country_code := none,
    company_id := some "cmp_1", address := some "123 Test Street",
    osm_data := none,
    creator_user_id := "12345678-1234-5678-1234-567812345678",
    creation_time := 1234567890 }

/-- A catalog item named like `sampleReceipt`'s purchase, owned by
`receiptShopRow`, with no stored status. -/
def sampleItemRow : ShopItemRow :=
  { id := "87654321-4321-8765-4321-876543210987", name := "Item A",
    shop_id := 567, status := none }

/-- A receipt-handler store holding the matching shop and catalog item. -/
def itemMdDB : MdDB :=
  { shops := [receiptShopRow], shop_items := [sampleItemRow], receipts := [],
    receipt_urls := [], itemLookups := [] }

/-! ## Theorems -/

theorem headTakeOne {α : Type} (l : List α) : (l.take 1).head? = l.head? := by
  cases l <;> rfl

/-- C2: a `Shop` constructed without an `osm_id` gets
`osm_id = "{type_code}:{key}"` under the fixed mapping NODE = 1,
RELATION = 2, WAY = 3, for every type and every key (0 and very large
keys included); a `Shop` constructed with an explicit `osm_id` keeps the
supplied value unchanged. -/
theorem shop_osm_id_derivation (t : OsmType) (k : Nat) (id0 : Option Int)
    (cc cid addr cuid lat lon dn v : String) (ct : Nat) (od : OsmData) :
    (Shop.make id0 none cc cid addr
        { type := t, key := k, lat := lat, lon := lon, display_name := dn }
        cuid ct).osm_id
      = (match t with
          | .NODE => "1"
          | .RELATION => "2"
          | .WAY => "3") ++ ":" ++ toString k
    ∧ (Shop.make id0 (some v) cc cid addr od cuid ct).osm_id = v := by
  refine ⟨?_, rfl⟩
  cases t <;> (simp [Shop.make, deriveOsmId, osmTypeCode]; try rfl)

/-- C1: `add_shop_id` on a store whose receipt table lacks the receipt's
id — `update_one` reports failure — still returns the mutated receipt
normally instead of raising: the source discards `update_one`'s boolean,
while its own unit test `test_add_shop_id_database_failure` expects an
HTTP 500 exception. -/
theorem add_shop_id_returns_normally_on_failed_update :
    (receiptUpdateOne emptyMdDB sampleReceipt.id
        { sampleReceipt with shop_id := some 42 }).snd = false
    ∧ SfsMdReceiptHandler.add_shop_id emptyMdDB 42 sampleReceipt
      = (emptyMdDB, Except.ok { sampleReceipt with shop_id := some 42 }) := by
  exact ⟨rfl, rfl⟩

/-- C10: on the found path of `ShopHandler.get_or_create` (the `osm_id`
lookup returns a row) the handler issues no write: the store is returned
unchanged. -/
theorem shop_get_or_create_found_no_write (db : ShopDB) (shop : Shop)
    (row : ShopRow)
    (h : (shopReadManyByOsmId db shop.osm_id).head? = some row) :
    (ShopHandler.get_or_create db shop).fst = db := by
  simp only [ShopHandler.get_or_create, h]

/-- Witness for C10: on a store holding a legacy row for
`sampleShop.osm_id`, `get_or_create` leaves the store untouched. -/
theorem shop_get_or_create_found_no_write_witness :
    (ShopHandler.get_or_create legacyShopDB sampleShop).fst = legacyShopDB :=
  shop_get_or_create_found_no_write legacyShopDB sampleShop legacyShopRow rfl

/-- C6: on the found path of `ShopHandler.get_or_create`, exactly the
NULL stored legacy columns among `country_code`, `company_id`,
`address`, `osm_data` are backfilled from the incoming shop; non-null
stored columns, the stored id, the stored `osm_id` and the remaining
stored columns are kept. -/
theorem shop_get_or_create_backfill (db : ShopDB) (shop : Shop)
    (row : ShopRow)
    (h : (shopReadManyByOsmId db shop.osm_id).head? = some row) :
    (ShopHandler.get_or_create db shop).snd.id = some row.id
    ∧ (ShopHandler.get_or_create db shop).snd.osm_id = row.osm_id
    ∧ (row.country_code = none →
        (ShopHandler.get_or_create db shop).snd.country_code = shop.country_code)
    ∧ (∀ w, row.country_code = some w →
        (ShopHandler.get_or_create db shop).snd.country_code = w)
    ∧ (row.company_id = none →
        (ShopHandler.get_or_create db shop).snd.company_id = shop.company_id)
    ∧ (∀ w, row.company_id = some w →
        (ShopHandler.get_or_create db shop).snd.company_id = w)
    ∧ (row.address = none →
        (ShopHandler.get_or_create db shop).snd.address = shop.address)
    ∧ (∀ w, row.address = some w →
        (ShopHandler.get_or_create db shop).snd.address = w)
    ∧ (row.osm_data = none →
        (ShopHandler.get_or_create db shop).snd.osm_data = shop.osm_data)
    ∧ (∀ w, row.osm_data = some w →
        (ShopHandler.get_or_create db shop).snd.osm_data = w)
    ∧ (ShopHandler.get_or_create db shop).snd.creator_user_id = row.creator_user_id
    ∧ (ShopHandler.get_or_create db shop).snd.creation_time = row.creation_time := by
  refine ⟨?_, ?_, ?_, ?_, ?_, ?_, ?_, ?_, ?_, ?_, ?_, ?_⟩ <;>
    simp only [ShopHandler.get_or_create, h] <;>
    first
      | rfl
      | (intro hnone; simp [hnone])
      | (intro w hw; simp [hw])

/-- Witness for C6: the all-NULL legacy row gets every legacy column
backfilled from `sampleShop` while keeping its stored id. -/
theorem shop_get_or_create_backfill_witness :
    (ShopHandler.get_or_create legacyShopDB sampleShop).snd.id = some 42
    ∧ (ShopHandler.get_or_create legacyShopDB sampleShop).snd.country_code
      = sampleShop.country_code := by
  have h := shop_get_or_create_backfill legacyShopDB sampleShop legacyShopRow rfl
  exact ⟨h.1, h.2.2.1 rfl⟩

theorem shopReadManyAppendHit (rows : List ShopRow) (n : Int) (row : ShopRow)
    (osm : String)
    (hfil : rows.filter (fun r => r.osm_id == osm) = [])
    (hosm : row.osm_id = osm) :
    (shopReadManyByOsmId { rows := rows ++ [row], nextId := n } osm).head?
      = some row := by
  simp [shopReadManyByOsmId, List.filter_append, hfil, hosm]

/-- C3: `ShopHandler.get_or_create` is idempotent on `osm_id`: a second
call with a shop carrying the same `osm_id` (its other fields arbitrary,
in particular a different address) returns the same id and leaves the
store unchanged — no second row is created. -/
theorem shop_get_or_create_idempotent (db : ShopDB) (s1 s2 : Shop)
    (h : s2.osm_id = s1.osm_id) :
    (ShopHandler.get_or_create (ShopHandler.get_or_create db s1).fst s2).snd.id
      = (ShopHandler.get_or_create db s1).snd.id
    ∧ (ShopHandler.get_or_create (ShopHandler.get_or_create db s1).fst s2).fst
      = (ShopHandler.get_or_create db s1).fst := by
  rcases hh : (shopReadManyByOsmId db s1.osm_id).head? with _ | row
  · have hfil : db.rows.filter (fun r => r.osm_id == s1.osm_id) = [] := by
      rw [shopReadManyByOsmId, headTakeOne] at hh
      exact List.head?_eq_none_iff.mp hh
    have hd := shopReadManyAppendHit db.rows (db.nextId + 1)
        { id := s1.id.getD db.nextId
          osm_id := s1.osm_id
          country_code := some s1.country_code
          company_id := some s1.company_id
          address := some s1.address
          osm_data := some s1.osm_data
          creator_user_id := s1.creator_user_id
          creation_time := s1.creation_time }
        s1.osm_id hfil rfl
    constructor <;>
      simp only [ShopHandler.get_or_create, h, hh, shopCreateOne, hd]
  · constructor <;> simp only [ShopHandler.get_or_create, h, hh]

/-- Witness for C3: creating a new shop and re-submitting one with the
same `osm_id` yields the same id twice and no second row. -/
theorem shop_get_or_create_idempotent_witness :
    (ShopHandler.get_or_create
        (ShopHandler.get_or_create emptyShopDB sampleShop).fst sampleShop).snd.id
      = (ShopHandler.get_or_create emptyShopDB sampleShop).snd.id
    ∧ (ShopHandler.get_or_create
        (ShopHandler.get_or_create emptyShopDB sampleShop).fst sampleShop).fst
      = (ShopHandler.get_or_create emptyShopDB sampleShop).fst :=
  shop_get_or_create_idempotent emptyShopDB sampleShop sampleShop rfl

/-- C9: `UserIdentityHandler.update` sends exactly the identity's
remaining fields with `id` and `provider` stripped from the payload,
locates the row by the composite `(id, provider)` key (the store's
boolean result is returned unchanged), and consequently never mutates
any row's `id` or `provider` column. -/
theorem identity_update_strips_key_fields (db : UserDB) (identity : IdentityRow) :
    identityUpdatePayload identity = [("user_id", toString identity.user_id)]
    ∧ (UserIdentityHandler.update db identity).snd
      = db.identities.any
          (fun r => r.id == identity.id && r.provider == identity.provider)
    ∧ (UserIdentityHandler.update db identity).fst.identities.map IdentityRow.id
      = db.identities.map IdentityRow.id
    ∧ (UserIdentityHandler.update db identity).fst.identities.map IdentityRow.provider
      = db.identities.map IdentityRow.provider := by
  refine ⟨rfl, ?_, ?_, ?_⟩ <;>
    by_cases hc :
        db.identities.any
          (fun r => r.id == identity.id && r.provider == identity.provider) = true <;>
    simp only [UserIdentityHandler.update, identityUpdateOneBy, hc, if_true, if_false,
      Bool.not_eq_true] at * <;>
    simp_all [List.map_map, applyIdentityPayload, identityUpdatePayload,
      identityModelDump]
  all_goals
    intro a _
    split <;> simp_all

/-- C4: `get_or_create_user_by_identity` called twice with the same
`(id, provider)` — the second call with arbitrary email and name —
returns the same `User.id` both times, creates exactly one user row and
one identity row in total, and the second call writes nothing. -/
theorem get_or_create_user_by_identity_idempotent (db : UserDB)
    (i p : String) (e e2 : Option String) (n n2 : String)
    (h1 : UserIdentityHandler.find db i p = none)
    (h2 : ∀ u ∈ db.users, u.id ≠ db.nextUserId) :
    (∃ uid : Nat,
      Option.map User.id
          (UserIdentityHandler.get_or_create_user_by_identity db i p e n).snd
        = some (some uid)
      ∧ Option.map User.id
          (UserIdentityHandler.get_or_create_user_by_identity
            (UserIdentityHandler.get_or_create_user_by_identity db i p e n).fst
            i p e2 n2).snd
        = some (some uid))
    ∧ (UserIdentityHandler.get_or_create_user_by_identity db i p e n).fst.users.length
      = db.users.length + 1
    ∧ (UserIdentityHandler.get_or_create_user_by_identity db i p e n).fst.identities.length
      = db.identities.length + 1
    ∧ (UserIdentityHandler.get_or_create_user_by_identity
        (UserIdentityHandler.get_or_create_user_by_identity db i p e n).fst
        i p e2 n2).fst
      = (UserIdentityHandler.get_or_create_user_by_identity db i p e n).fst
    ∧ (UserIdentityHandler.get_or_create_user_by_identity
        (UserIdentityHandler.get_or_create_user_by_identity db i p e n).fst
        i p e2 n2).snd
      = (UserIdentityHandler.get_or_create_user_by_identity db i p e n).snd := by
  have hfil : db.identities.filter (fun r => r.id == i && r.provider == p) = [] := by
    rw [UserIdentityHandler.find, headTakeOne] at h1
    exact List.head?_eq_none_iff.mp h1
  have hfilu : db.users.filter (fun u => u.id == db.nextUserId) = [] := by
    refine List.filter_eq_nil_iff.mpr (fun u hu => ?_)
    simp [h2 u hu]
  refine ⟨⟨db.nextUserId, ?_, ?_⟩, ?_, ?_, ?_, ?_⟩ <;>
    simp [UserIdentityHandler.get_or_create_user_by_identity, h1, userCreateOne,
      UserIdentityHandler.create, UserIdentityHandler.find, userReadOne,
      List.filter_append, hfil, hfilu]

/-- Witness for C4: on empty tables, two calls with the same
`(id, provider)` return the same user id and write only once. -/
theorem get_or_create_user_by_identity_idempotent_witness :
    (∃ uid : Nat,
      Option.map User.id
          (UserIdentityHandler.get_or_create_user_by_identity emptyUserDB
            "google_123" "google" (some "a@b.c") "Test User").snd
        = some (some uid)
      ∧ Option.map User.id
          (UserIdentityHandler.get_or_create_user_by_identity
            (UserIdentityHandler.get_or_create_user_by_identity emptyUserDB
              "google_123" "google" (some "a@b.c") "Test User").fst
            "google_123" "google" none "Other Name").snd
        = some (some uid))
    ∧ (UserIdentityHandler.get_or_create_user_by_identity emptyUserDB
        "google_123" "google" (some "a@b.c") "Test User").fst.users.length
      = emptyUserDB.users.length + 1 := by
  have h := get_or_create_user_by_identity_idempotent emptyUserDB
    "google_123" "google" (some "a@b.c") none "Test User" "Other Name"
    rfl (by simp [emptyUserDB])
  exact ⟨h.1, h.2.1⟩

theorem receiptCreateOrUpdateOne_receipt_urls (db : MdDB) (r : SfsMdReceipt) :
    (receiptCreateOrUpdateOne db r).receipt_urls = db.receipt_urls := by
  unfold receiptCreateOrUpdateOne
  split <;> rfl

theorem receiptCreateOrUpdateOne_itemLookups (db : MdDB) (r : SfsMdReceipt) :
    (receiptCreateOrUpdateOne db r).itemLookups = db.itemLookups := by
  unfold receiptCreateOrUpdateOne
  split <;> rfl

theorem receiptUrlCreateOne_receipts (db : MdDB) (row : ReceiptUrlRow) :
    (receiptUrlCreateOne db row).receipts = db.receipts := rfl

theorem receiptUrlCreateOne_itemLookups (db : MdDB) (row : ReceiptUrlRow) :
    (receiptUrlCreateOne db row).itemLookups = db.itemLookups := rfl

theorem gOC_receipt_urls (db : MdDB) (receipt : SfsMdReceipt) :
    (SfsMdReceiptHandler.get_or_create db receipt).fst.receipt_urls
      = db.receipt_urls ++ [ReceiptUrl.make receipt.receipt_url receipt.id]
        ++ (match receipt.receipt_canonical_url with
            | some cu => [ReceiptUrl.make cu receipt.id]
            | none => []) := by
  unfold SfsMdReceiptHandler.get_or_create
  rcases hsh : ((db.shops.filter (fun s => shopMatchesReceipt s receipt)).take 1).head?
      with _ | s <;>
    cases hcu : receipt.receipt_canonical_url <;>
    simp [hsh, hcu, receiptCreateOrUpdateOne_receipt_urls, receiptUrlCreateOne]

/-- C8: every `get_or_create` call appends (plain create, no upsert)
exactly one receipt_url row for the receipt's primary URL, plus a second
one for the canonical URL exactly when one is present; a repeated call
with the same receipt appends the same rows again. -/
theorem get_or_create_creates_url_rows (db : MdDB) (receipt : SfsMdReceipt) :
    (SfsMdReceiptHandler.get_or_create db receipt).fst.receipt_urls
      = db.receipt_urls ++ [ReceiptUrl.make receipt.receipt_url receipt.id]
        ++ (match receipt.receipt_canonical_url with
            | some cu => [ReceiptUrl.make cu receipt.id]
            | none => [])
    ∧ ((SfsMdReceiptHandler.get_or_create
          (SfsMdReceiptHandler.get_or_create db receipt).fst
          receipt).fst.receipt_urls).length
      = db.receipt_urls.length
        + 2 * (match receipt.receipt_canonical_url with
               | some _ => 2
               | none => 1) := by
  refine ⟨gOC_receipt_urls db receipt, ?_⟩
  rw [gOC_receipt_urls, gOC_receipt_urls]
  cases receipt.receipt_canonical_url <;> simp

/-- C7: in `get_or_create`, catalog lookups by `(name, shop_id)` are
issued only when a shop was resolved from
`(address, company_id, country_code)` — with no shop match the purchases
and the lookup log are untouched; with a shop match, one lookup per
purchase is issued and each purchase with a matching catalog item gets
`item_id :=` the matched item's id and `status :=` the matched row's
status, `PENDING` when the matched row lacks one, while purchases with
no match are kept unchanged (a null `item_id` stays null). -/
theorem get_or_create_item_resolution (db : MdDB) (receipt : SfsMdReceipt) :
    (((db.shops.filter (fun s => shopMatchesReceipt s receipt)).take 1).head? = none →
      (SfsMdReceiptHandler.get_or_create db receipt).snd.purchases = receipt.purchases
      ∧ (SfsMdReceiptHandler.get_or_create db receipt).snd.shop_id = receipt.shop_id
      ∧ (SfsMdReceiptHandler.get_or_create db receipt).fst.itemLookups = db.itemLookups)
    ∧ (∀ s, ((db.shops.filter (fun s => shopMatchesReceipt s receipt)).take 1).head?
          = some s →
      (SfsMdReceiptHandler.get_or_create db receipt).snd.shop_id = some s.id
      ∧ (SfsMdReceiptHandler.get_or_create db receipt).fst.itemLookups
        = db.itemLookups ++ receipt.purchases.map (fun p => (p.name, s.id))
      ∧ (SfsMdReceiptHandler.get_or_create db receipt).snd.purchases
        = receipt.purchases.map (fun p =>
            match ((db.shop_items.filter
                (fun it => it.name == p.name && it.shop_id == s.id)).take 1).head? with
            | some it =>
              { p with item_id := some it.id, status := it.status.getD .PENDING }
            | none => p)) := by
  constructor
  · intro hsh
    unfold SfsMdReceiptHandler.get_or_create
    cases hcu : receipt.receipt_canonical_url <;>
      simp [hsh, hcu, receiptCreateOrUpdateOne_itemLookups, receiptUrlCreateOne_itemLookups]
  · intro s hsh
    unfold SfsMdReceiptHandler.get_or_create
    cases hcu : receipt.receipt_canonical_url <;>
      simp [hsh, hcu, receiptCreateOrUpdateOne_itemLookups, receiptUrlCreateOne_itemLookups,
        resolvePurchase]

/-- Witness for C7: with a matching shop and a catalog item named like
the purchase, the purchase gets the item's id and a PENDING status; on
the empty store the purchases are untouched. -/
theorem get_or_create_item_resolution_witness :
    (SfsMdReceiptHandler.get_or_create itemMdDB sampleReceipt).snd.purchases
      = [{ name := "Item A", unit := some "pcs",
           item_id := some "87654321-4321-8765-4321-876543210987",
           status := .PENDING }]
    ∧ (SfsMdReceiptHandler.get_or_create emptyMdDB sampleReceipt).snd.purchases
      = sampleReceipt.purchases := by
  constructor
  · rw [((get_or_create_item_resolution itemMdDB sampleReceipt).2 receiptShopRow rfl).2.2]
    rfl
  · exact ((get_or_create_item_resolution emptyMdDB sampleReceipt).1 rfl).1

theorem upsert_has_id (db : MdDB) (r : SfsMdReceipt) :
    ∃ x ∈ (receiptCreateOrUpdateOne db r).receipts, x.id = r.id := by
  unfold receiptCreateOrUpdateOne
  split
  next hany =>
    obtain ⟨x, hx, hpx⟩ := List.any_eq_true.mp hany
    exact ⟨r, List.mem_map.mpr ⟨x, hx, by simp [hpx]⟩, rfl⟩
  next => exact ⟨r, by simp, rfl⟩

theorem gOC_receipts_has_id (db : MdDB) (receipt : SfsMdReceipt) :
    ∃ x ∈ (SfsMdReceiptHandler.get_or_create db receipt).fst.receipts,
      x.id = receipt.id := by
  unfold SfsMdReceiptHandler.get_or_create
  rcases hsh : ((db.shops.filter (fun s => shopMatchesReceipt s receipt)).take 1).head?
      with _ | s <;>
    cases hcu : receipt.receipt_canonical_url <;>
    simp only [hsh, hcu, receiptUrlCreateOne_receipts] <;>
    exact upsert_has_id _ _

theorem readOne_isSome_of_ex (db : MdDB) (rid : String)
    (hex : ∃ x ∈ db.receipts, x.id = rid) :
    (receiptReadOne db rid).isSome = true := by
  obtain ⟨x, hx, hid⟩ := hex
  rcases hfe : db.receipts.filter (fun r => r.id == rid) with _ | ⟨y, ys⟩
  · exact absurd (List.filter_eq_nil_iff.mp hfe x hx) (by simp [hid])
  · simp [receiptReadOne, hfe]

theorem gOC_urlReadOne (db : MdDB) (receipt : SfsMdReceipt)
    (hfilu : db.receipt_urls.filter
        (fun ru => ru.id == make_hash receipt.receipt_url) = []) :
    receiptUrlReadOne (SfsMdReceiptHandler.get_or_create db receipt).fst
        (make_hash receipt.receipt_url)
      = some (ReceiptUrl.make receipt.receipt_url receipt.id) := by
  unfold receiptUrlReadOne
  rw [gOC_receipt_urls]
  cases receipt.receipt_canonical_url <;>
    simp [List.filter_append, hfilu, ReceiptUrl.make]

theorem gOC_urlReadOne_canonical (db : MdDB) (receipt : SfsMdReceipt)
    (cu : String)
    (hcu : receipt.receipt_canonical_url = some cu)
    (hfilu : db.receipt_urls.filter (fun ru => ru.id == make_hash cu) = []) :
    ∃ ru, receiptUrlReadOne (SfsMdReceiptHandler.get_or_create db receipt).fst
        (make_hash cu) = some ru
      ∧ ru.receipt_id = receipt.id := by
  unfold receiptUrlReadOne
  rw [gOC_receipt_urls, hcu]
  by_cases hc : make_hash receipt.receipt_url = make_hash cu
  · refine ⟨ReceiptUrl.make receipt.receipt_url receipt.id, ?_, rfl⟩
    simp [List.filter_append, hfilu, ReceiptUrl.make, hc]
  · refine ⟨ReceiptUrl.make cu receipt.id, ?_, rfl⟩
    simp [List.filter_append, hfilu, ReceiptUrl.make, hc]

/-- C5: every URL registered against a receipt id by `get_or_create` —
the primary `receipt_url` and, when present, the canonical URL
registered by the same call — resolves through `get_by_url` to the same
receipt `get_by_id` returns for that id (and that lookup hits); a URL
whose hash has no receipt_url row yields `none`; a receipt_url row whose
`receipt_id` has no receipt row also yields `none` — absence, not an
error, at either step. -/
theorem get_by_url_roundtrip :
    (∀ (db : MdDB) (receipt : SfsMdReceipt),
      (∀ ru ∈ db.receipt_urls, ru.id ≠ make_hash receipt.receipt_url) →
      SfsMdReceiptHandler.get_by_url
          (SfsMdReceiptHandler.get_or_create db receipt).fst receipt.receipt_url
        = SfsMdReceiptHandler.get_by_id
            (SfsMdReceiptHandler.get_or_create db receipt).fst receipt.id
      ∧ (SfsMdReceiptHandler.get_by_id
          (SfsMdReceiptHandler.get_or_create db receipt).fst receipt.id).isSome
        = true)
    ∧ (∀ (db : MdDB) (url : String),
      (∀ ru ∈ db.receipt_urls, ru.id ≠ make_hash url) →
      SfsMdReceiptHandler.get_by_url db url = none)
    ∧ (∀ (db : MdDB) (url : String) (ru : ReceiptUrlRow),
      receiptUrlReadOne db (make_hash url) = some ru →
      (∀ r ∈ db.receipts, r.id ≠ ru.receipt_id) →
      SfsMdReceiptHandler.get_by_url db url = none)
    ∧ (∀ (db : MdDB) (receipt : SfsMdReceipt) (cu : String),
      receipt.receipt_canonical_url = some cu →
      (∀ ru ∈ db.receipt_urls, ru.id ≠ make_hash cu) →
      SfsMdReceiptHandler.get_by_url
          (SfsMdReceiptHandler.get_or_create db receipt).fst cu
        = SfsMdReceiptHandler.get_by_id
            (SfsMdReceiptHandler.get_or_create db receipt).fst receipt.id
      ∧ (SfsMdReceiptHandler.get_by_id
          (SfsMdReceiptHandler.get_or_create db receipt).fst receipt.id).isSome
        = true) := by
  refine ⟨?_, ?_, ?_, ?_⟩
  · intro db receipt hfresh
    have hfilu : db.receipt_urls.filter
        (fun ru => ru.id == make_hash receipt.receipt_url) = [] :=
      List.filter_eq_nil_iff.mpr (fun ru hru => by simp [hfresh ru hru])
    have hsome := readOne_isSome_of_ex _ receipt.id (gOC_receipts_has_id db receipt)
    constructor
    · unfold SfsMdReceiptHandler.get_by_url SfsMdReceiptHandler.get_by_id
      rw [gOC_urlReadOne db receipt hfilu]
      simp [ReceiptUrl.make]
    · unfold SfsMdReceiptHandler.get_by_id
      rcases hr : receiptReadOne (SfsMdReceiptHandler.get_or_create db receipt).fst
          receipt.id with _ | r
      · rw [hr] at hsome
        simp at hsome
      · rfl
  · intro db url hfresh
    have hfilu : db.receipt_urls.filter (fun ru => ru.id == make_hash url) = [] :=
      List.filter_eq_nil_iff.mpr (fun ru hru => by simp [hfresh ru hru])
    unfold SfsMdReceiptHandler.get_by_url
    simp [receiptUrlReadOne, hfilu]
  · intro db url ru hro hnone
    have hfilr : db.receipts.filter (fun r => r.id == ru.receipt_id) = [] :=
      List.filter_eq_nil_iff.mpr (fun r hr => by simp [hnone r hr])
    unfold SfsMdReceiptHandler.get_by_url
    rw [hro]
    simp [receiptReadOne, hfilr]
  · intro db receipt cu hcu hfresh
    have hfilu : db.receipt_urls.filter (fun ru => ru.id == make_hash cu) = [] :=
      List.filter_eq_nil_iff.mpr (fun ru hru => by simp [hfresh ru hru])
    obtain ⟨ru, hro, hrid⟩ := gOC_urlReadOne_canonical db receipt cu hcu hfilu
    have hsome := readOne_isSome_of_ex _ receipt.id (gOC_receipts_has_id db receipt)
    constructor
    · unfold SfsMdReceiptHandler.get_by_url SfsMdReceiptHandler.get_by_id
      rw [hro]
      simp [hrid]
    · unfold SfsMdReceiptHandler.get_by_id
      rcases hr : receiptReadOne (SfsMdReceiptHandler.get_or_create db receipt).fst
          receipt.id with _ | r
      · rw [hr] at hsome
        simp at hsome
      · rfl

/-- Witness for C5: registering `sampleReceipt` on the empty store makes
both its primary and its canonical URL resolve exactly like `get_by_id`,
and an unregistered URL on the empty store yields `none`. -/
theorem get_by_url_roundtrip_witness :
    (SfsMdReceiptHandler.get_by_url
        (SfsMdReceiptHandler.get_or_create emptyMdDB sampleReceipt).fst
        sampleReceipt.receipt_url
      = SfsMdReceiptHandler.get_by_id
          (SfsMdReceiptHandler.get_or_create emptyMdDB sampleReceipt).fst
          sampleReceipt.id)
    ∧ (SfsMdReceiptHandler.get_by_url
        (SfsMdReceiptHandler.get_or_create emptyMdDB sampleReceipt).fst
        "https://example.com/receipt/c/42"
      = SfsMdReceiptHandler.get_by_id
          (SfsMdReceiptHandler.get_or_create emptyMdDB sampleReceipt).fst
          sampleReceipt.id)
    ∧ SfsMdReceiptHandler.get_by_url emptyMdDB "https://example.com/none" = none := by
  refine ⟨?_, ?_, ?_⟩
  · exact (get_by_url_roundtrip.1 emptyMdDB sampleReceipt
      (by intro ru hru; simp [emptyMdDB] at hru)).1
  · exact (get_by_url_roundtrip.2.2.2 emptyMdDB sampleReceipt
      "https://example.com/receipt/c/42" rfl
      (by intro ru hru; simp [emptyMdDB] at hru)).1
  · exact get_by_url_roundtrip.2.1 emptyMdDB "https://example.com/none"
      (by intro ru hru; simp [emptyMdDB] at hru)

end PBApi
